import Mathlib

/-
A shallow embedding of the ConfGen repository: the per-sheet JunOS command
generators, the per-device configuration builder and the inventory loop of
MassGen's juniper_excel_to_config.py, and the per-device assembly of
OOB-Jinja2's generate_configs.py.  Spreadsheet cells are modelled as
`Option String` (with `none` playing the role of pandas `NaN`), fallible
code returns `Except`, and the Python exception that escapes a generator is
an `Except.error` that propagates to the top of the run.
-/

namespace ConfGen

/-- ASCII lower-casing of one character, as Python `str.lower` does on the
ASCII identifiers used here. -/
def lowerChar (c : Char) : Char :=
  if c.toNat ≥ 65 && c.toNat ≤ 90 then Char.ofNat (c.toNat + 32) else c

/-- ASCII upper-casing of one character, as Python `str.upper` does on the
ASCII identifiers used here. -/
def upperChar (c : Char) : Char :=
  if c.toNat ≥ 97 && c.toNat ≤ 122 then Char.ofNat (c.toNat - 32) else c

/-- The whitespace characters stripped by Python `str.strip()`. -/
def wsChar (c : Char) : Bool :=
  c == ' ' || c == '\t' || c == '\n' || c == '\r' || c == '\x0b' || c == '\x0c'

/-- Python `s.lower()`. -/
def pyLower (s : String) : String := String.mk (s.data.map lowerChar)

/-- Python `s.upper()`. -/
def pyUpper (s : String) : String := String.mk (s.data.map upperChar)

/-- Python `s.strip()`. -/
def pyStrip (s : String) : String :=
  String.mk ((((s.data.dropWhile wsChar).reverse).dropWhile wsChar).reverse)

/-- Whether the first character list is an initial segment of the second. -/
def hasPrefixChars : List Char → List Char → Bool
  | [], _ => true
  | _ :: _, [] => false
  | a :: as, b :: bs => a == b && hasPrefixChars as bs

/-- The worker of `pySplit`: scan the character list, cutting at each
occurrence of the (non-empty) separator; the fuel bounds the number of
scan steps by the input length. -/
def splitListAux (sep : List Char) : Nat → List Char → List Char → List (List Char)
  | _, acc, [] => [acc.reverse]
  | 0, acc, rest => [acc.reverse ++ rest]
  | fuel + 1, acc, c :: cs =>
      if hasPrefixChars sep (c :: cs) then
        acc.reverse :: splitListAux sep fuel [] (List.drop sep.length (c :: cs))
      else
        splitListAux sep fuel (c :: acc) cs

/-- Python `s.split(sep)` for a non-empty separator. -/
def pySplit (s sep : String) : List String :=
  (splitListAux sep.data (s.data.length + 1) [] s.data).map String.mk

/-- Python `s.replace(pat, rep)` for a non-empty pattern: replace every
occurrence. -/
def pyReplace (s pat rep : String) : String := String.intercalate rep (pySplit s pat)

/-- Python `s.startswith(pat)`. -/
def pyStartsWith (s pat : String) : Bool := hasPrefixChars pat.data s.data

/-- A spreadsheet cell: `none` models a missing value (pandas `NaN`). -/
abbrev Cell := Option String

/-- Python `pd.notna(v) and v != ''`: the cell holds a non-empty value. -/
def filled : Cell → Bool
  | none => false
  | some s => s != ""

/-- Python `str(v)` applied to a cell: `NaN` prints as the string `nan`. -/
def cellStr : Cell → String
  | none => "nan"
  | some s => s

/-- Concatenation of the per-row line lists, in row order. -/
def joinAll : List (List String) → List String
  | [] => []
  | l :: ls => l ++ joinAll ls

/-- One row of the System sheet (Parameter / Value columns). -/
structure SystemRow where
  param : Cell
  value : Cell
deriving DecidableEq

/-- The command emitted for one System row by `generate_system_config`:
its `config_map` entries plus the `name_server*` rule; `none` when the row
emits nothing (blank value, `serial_number`, or an unmapped parameter). -/
def systemRowCmd (r : SystemRow) : Option String :=
  if filled r.value then
    match r.param with
    | some p =>
        let value := cellStr r.value
        if p == "serial_number" then none
        else if p == "hostname" then some s!"set system host-name {value}"
        else if p == "domain_name" then some s!"set system domain-name {value}"
        else if p == "root_password" then
          some s!"set system root-authentication encrypted-password \"{value}\""
        else if p == "time_zone" then some s!"set system time-zone {value}"
        else if p == "login_message" then some s!"set system login message \"{value}\""
        else if pyStartsWith p "name_server" then some s!"set system name-server {value}"
        else none
    | none => none
  else none

/-- The serial number discovered by `generate_system_config`: the last
filled `serial_number` row wins. -/
def systemSerial (rows : List SystemRow) : Option String :=
  rows.foldl
    (fun acc r =>
      if filled r.value && (r.param == some "serial_number") then some (cellStr r.value) else acc)
    none

/-- `generate_system_config`: header comment, one command per mapped row,
a trailing blank line, plus the discovered serial number. -/
def generate_system_config (rows : List SystemRow) : List String × Option String :=
  (["# System Configuration"] ++ rows.filterMap systemRowCmd ++ [""], systemSerial rows)

/-- One row of the NTP sheet. -/
structure NtpRow where
  server : Cell
  prefer : Cell
deriving DecidableEq

/-- The command emitted for one NTP row: blank server emits nothing, and
`str(prefer).upper() == 'YES'` appends the `prefer` keyword. -/
def ntpRowCmd (r : NtpRow) : Option String :=
  if filled r.server then
    let server := cellStr r.server
    let base := s!"set system ntp server {server}"
    if pyUpper (cellStr r.prefer) == "YES" then some (base ++ " prefer") else some base
  else none

/-- `generate_ntp_config`. -/
def generate_ntp_config (rows : List NtpRow) : List String :=
  ["# NTP Configuration"] ++ rows.filterMap ntpRowCmd ++ [""]

/-- One row of the Syslog sheet. -/
structure SyslogRow where
  server : Cell
  facility : Cell
  level : Cell
deriving DecidableEq

/-- The command emitted for one Syslog row. -/
def syslogRowCmd (r : SyslogRow) : Option String :=
  if filled r.server then
    let server := cellStr r.server
    let facility := cellStr r.facility
    let level := cellStr r.level
    some s!"set system syslog host {server} {facility} {level}"
  else none

/-- `generate_syslog_config`. -/
def generate_syslog_config (rows : List SyslogRow) : List String :=
  ["# Syslog Configuration"] ++ rows.filterMap syslogRowCmd ++ [""]

/-- One row of the TACACS sheet. -/
structure TacacsRow where
  server : Cell
  secret : Cell
  port : Cell
deriving DecidableEq

/-- The commands emitted for one TACACS row: the secret line always, the
port line only when the Port cell is not `NaN` (`pd.notna(port)`). -/
def tacacsRowLines (r : TacacsRow) : List String :=
  if filled r.server then
    let server := cellStr r.server
    let secret := cellStr r.secret
    let l1 := s!"set system tacplus-server {server} secret \"{secret}\""
    match r.port with
    | some p => [l1, s!"set system tacplus-server {server} port {p}"]
    | none => [l1]
  else []

/-- `generate_tacacs_config`. -/
def generate_tacacs_config (rows : List TacacsRow) : List String :=
  ["# TACACS+ Configuration"] ++ joinAll (rows.map tacacsRowLines) ++ [""]

/-- One row of the VLANs sheet. -/
structure VlanRow where
  vlan_id : Cell
  vlan_name : Cell
  l3_interface : Cell
deriving DecidableEq

/-- The commands emitted for one VLAN row: a blank `VLAN ID` emits nothing. -/
def vlanRowLines (r : VlanRow) : List String :=
  if filled r.vlan_id then
    let vlan_id := cellStr r.vlan_id
    let vlan_name := cellStr r.vlan_name
    let l1 := s!"set vlans {vlan_name} vlan-id {vlan_id}"
    if filled r.l3_interface then
      let l3 := cellStr r.l3_interface
      [l1, s!"set vlans {vlan_name} l3-interface {l3}"]
    else [l1]
  else []

/-- `generate_vlan_config`. -/
def generate_vlan_config (rows : List VlanRow) : List String :=
  ["# VLAN Configuration"] ++ joinAll (rows.map vlanRowLines) ++ [""]

/-- One row of the IRB_Interfaces sheet. -/
structure IrbRow where
  interface : Cell
  ip_address : Cell
  prefixLen : Cell
  description : Cell
deriving DecidableEq

/-- The commands emitted for one IRB row: `unit = interface.split('.')[-1]`
and `base = interface.split('.')[0]`. -/
def irbRowLines (r : IrbRow) : List String :=
  if filled r.interface then
    let s := cellStr r.interface
    let u := (pySplit s ".").getLastD ""
    let b := (pySplit s ".").headD ""
    let ip := cellStr r.ip_address
    let plen := cellStr r.prefixLen
    let addr := s!"set interfaces {b} unit {u} family inet address {ip}/{plen}"
    if filled r.description then
      let d := cellStr r.description
      [s!"set interfaces {b} unit {u} description \"{d}\"", addr]
    else [addr]
  else []

/-- `generate_irb_config`. -/
def generate_irb_config (rows : List IrbRow) : List String :=
  ["# IRB Interface Configuration"] ++ joinAll (rows.map irbRowLines) ++ [""]

/-- One row of the Interfaces sheet. -/
structure IfaceRow where
  interface : Cell
  description : Cell
  mode : Cell
  vlans : Cell
  native_vlan : Cell
  speed : Cell
  duplex : Cell
  enabled : Cell
deriving DecidableEq

/-- The commands emitted for one Interfaces row, in the source's order:
description, speed, duplex, the ethernet-switching line, the trunk or
access block, then `disable` when `str(enabled).upper() == 'NO'`. -/
def ifaceRowLines (r : IfaceRow) : List String :=
  if filled r.interface then
    let i := cellStr r.interface
    let descLines :=
      if filled r.description then
        let d := cellStr r.description
        [s!"set interfaces {i} description \"{d}\""]
      else []
    let speedLines :=
      match r.speed with
      | some sp => if sp != "auto" then [s!"set interfaces {i} speed {sp}"] else []
      | none => []
    let duplexLines :=
      match r.duplex with
      | some d => if d != "auto" then [s!"set interfaces {i} link-mode {d}-duplex"] else []
      | none => []
    let ethLine := [s!"set interfaces {i} unit 0 family ethernet-switching"]
    let vl := cellStr r.vlans
    let modeLines :=
      if r.mode == some "trunk" then
        [s!"set interfaces {i} unit 0 family ethernet-switching interface-mode trunk"] ++
        (if vl != "" && vl != "nan" then
           let members := pyReplace vl "," " "
           [s!"set interfaces {i} unit 0 family ethernet-switching vlan members [{members}]"]
         else []) ++
        (if filled r.native_vlan then
           let nv := cellStr r.native_vlan
           [s!"set interfaces {i} native-vlan-id {nv}"]
         else [])
      else if r.mode == some "access" then
        [s!"set interfaces {i} unit 0 family ethernet-switching interface-mode access"] ++
        (if vl != "" && vl != "nan" then
           [s!"set interfaces {i} unit 0 family ethernet-switching vlan members {vl}"]
         else [])
      else []
    let disableLines :=
      if pyUpper (cellStr r.enabled) == "NO" then [s!"set interfaces {i} disable"] else []
    descLines ++ speedLines ++ duplexLines ++ ethLine ++ modeLines ++ disableLines
  else []

/-- `generate_interface_config`. -/
def generate_interface_config (rows : List IfaceRow) : List String :=
  ["# Interface Configuration"] ++ joinAll (rows.map ifaceRowLines) ++ [""]

/-- One row of the Management sheet. -/
structure MgmtRow where
  interface : Cell
  ip_address : Cell
  prefixLen : Cell
  gateway : Cell
  description : Cell
deriving DecidableEq

/-- The commands emitted for one Management row.  The address comes from
the override when it is truthy (`override_ip if override_ip else
row['IP Address']`): an empty override string falls back to the row. -/
def mgmtRowLines (override_ip : Option String) (r : MgmtRow) : List String :=
  if filled r.interface then
    let i := cellStr r.interface
    let ip :=
      match override_ip with
      | some o => if o == "" then cellStr r.ip_address else o
      | none => cellStr r.ip_address
    let plen := cellStr r.prefixLen
    let descLines :=
      if filled r.description then
        let d := cellStr r.description
        [s!"set interfaces {i} description \"{d}\""]
      else []
    let addrLine := [s!"set interfaces {i} unit 0 family inet address {ip}/{plen}"]
    let gwLines :=
      if filled r.gateway then
        let g := cellStr r.gateway
        [s!"set routing-options static route 0.0.0.0/0 next-hop {g}"]
      else []
    descLines ++ addrLine ++ gwLines
  else []

/-- `generate_management_config`. -/
def generate_management_config (rows : List MgmtRow) (override_ip : Option String) : List String :=
  ["# Management Interface Configuration"] ++ joinAll (rows.map (mgmtRowLines override_ip)) ++ [""]

/-- One row of the Hardening sheet. -/
structure HardeningRow where
  feature : Cell
  setting : Cell
deriving DecidableEq

/-- The contribution of one Hardening row to the main command list
(`feature_map` branches); `none` for a screen row or an unmapped feature.
The source gates on `pd.notna(feature) and pd.notna(setting)` only. -/
def hardeningCmd (r : HardeningRow) : Option String :=
  match r.feature, r.setting with
  | some f, some st =>
      if f == "ssh_protocol" && st == "v2" then
        some "set system services ssh protocol-version v2"
      else if f == "ssh_root_login" then some s!"set system services ssh root-login {st}"
      else if f == "max_sessions" then some s!"set system services ssh connection-limit {st}"
      else if f == "connection_limit" then some s!"set system services ssh rate-limit {st}"
      else if f == "authentication_order" then
        some s!"set system authentication-order [ {st} ]"
      else none
  | _, _ => none

/-- The contribution of one Hardening row to the screen command list:
features starting with `screen_` that fall through the earlier branches. -/
def hardeningScreen (r : HardeningRow) : Option String :=
  match r.feature, r.setting with
  | some f, some st =>
      if f == "ssh_protocol" && st == "v2" then none
      else if f == "ssh_root_login" || f == "max_sessions" || f == "connection_limit"
              || f == "authentication_order" then none
      else if pyStartsWith f "screen_" then
        let attack := pyReplace (pyReplace f "screen_" "") "_" "-"
        some s!"set security screen ids-option untrust-screen {attack} threshold {st}"
      else none
  | _, _ => none

/-- `generate_hardening_config`: the main commands in row order, then —
only when at least one screen row exists — a blank line, the IDS header
and the screen commands, then the trailing blank line. -/
def generate_hardening_config (rows : List HardeningRow) : List String :=
  let commands := ["# Security Hardening Configuration"] ++ rows.filterMap hardeningCmd
  let screens := rows.filterMap hardeningScreen
  commands ++ (if screens.isEmpty then [] else ["", "# IDS Screen Configuration"] ++ screens) ++ [""]

/-- The message of the `ValueError` Python raises when `split(':', 1)`
yields a single element that is unpacked into two variables. -/
def valueUnpackError : String := "not enough values to unpack (expected 2, got 1)"

/-- Python `s.split(':', 1)` unpacked into two variables: `none` models the
`ValueError` raised when the string contains no colon. -/
def splitFirstColon (s : String) : Option (String × String) :=
  match pySplit s ":" with
  | [] => none
  | [_] => none
  | a :: rest => some (a, String.intercalate ":" rest)

/-- One row of the SNMP sheet. -/
structure SnmpRow where
  name : Cell
  snmp_type : Cell
  authorization : Cell
  privacy : Cell
  access : Cell
deriving DecidableEq

/-- The v3-user authentication line for one SNMP row; the split failure is
the `ValueError` escaping the generator. -/
def snmpAuthLines (name : String) (auth : Cell) : Except String (List String) :=
  if filled auth then
    match splitFirstColon (cellStr auth) with
    | some (proto, pass) =>
        .ok [s!"set snmp v3 usm local-engine user {name} authentication-{proto} authentication-password \"{pass}\""]
    | none => .error valueUnpackError
  else .ok []

/-- The v3-user privacy line for one SNMP row. -/
def snmpPrivLines (name : String) (priv : Cell) : Except String (List String) :=
  if filled priv then
    match splitFirstColon (cellStr priv) with
    | some (proto, pass) =>
        .ok [s!"set snmp v3 usm local-engine user {name} privacy-{proto} privacy-password \"{pass}\""]
    | none => .error valueUnpackError
  else .ok []

/-- The commands emitted for one SNMP row, or the error escaping the
generator on a colon-less Authorization or Privacy value. -/
def snmpRowLines (r : SnmpRow) : Except String (List String) :=
  if filled r.name then
    let name := cellStr r.name
    if r.snmp_type == some "community" then
      let access := cellStr r.access
      .ok [s!"set snmp community {name} authorization {access}"]
    else if r.snmp_type == some "v3-user" then
      match snmpAuthLines name r.authorization with
      | .error e => .error e
      | .ok la =>
          match snmpPrivLines name r.privacy with
          | .error e => .error e
          | .ok lp => .ok (la ++ lp)
    else .ok []
  else .ok []

/-- The row loop of `generate_snmp_config`: commands accumulate in row
order, and the first raising row aborts the whole loop. -/
def snmpLoop : List SnmpRow → Except String (List String)
  | [] => .ok []
  | r :: rs =>
      match snmpRowLines r with
      | .error e => .error e
      | .ok l =>
          match snmpLoop rs with
          | .error e => .error e
          | .ok ls => .ok (l ++ ls)

/-- `generate_snmp_config`: header, row commands, trailing blank line; a
raising row makes the whole call raise. -/
def generate_snmp_config (rows : List SnmpRow) : Except String (List String) :=
  match snmpLoop rows with
  | .error e => .error e
  | .ok body => .ok (["# SNMP Configuration"] ++ body ++ [""])

/-- A sheet of the workbook, tagged by its column shape. -/
inductive Sheet where
  | systemS (rows : List SystemRow)
  | ntpS (rows : List NtpRow)
  | syslogS (rows : List SyslogRow)
  | tacacsS (rows : List TacacsRow)
  | vlansS (rows : List VlanRow)
  | irbS (rows : List IrbRow)
  | ifaceS (rows : List IfaceRow)
  | mgmtS (rows : List MgmtRow)
  | hardeningS (rows : List HardeningRow)
  | snmpS (rows : List SnmpRow)
deriving DecidableEq

/-- The workbook (`pd.ExcelFile`): named sheets in workbook order;
`sheets.map Prod.fst` plays the role of `xls.sheet_names`. -/
structure Workbook where
  sheets : List (String × Sheet)
deriving DecidableEq

/-- `pd.read_excel(xls, sheet_name=name)`: the first sheet with that name. -/
def findSheet (wb : Workbook) (name : String) : Option Sheet :=
  ((wb.sheets.find? (fun p => p.fst == name)).map (fun p => p.snd))

/-- The two `df.loc` assignments of `build_config`: every `hostname` row's
value becomes the override hostname, every `serial_number` row's value the
override serial. -/
def applySystemOverride (hostname serial_number : String) (rows : List SystemRow) : List SystemRow :=
  (rows.map (fun r => if r.param == some "hostname" then { r with value := some hostname } else r)).map
    (fun r => if r.param == some "serial_number" then { r with value := some serial_number } else r)

/-- The keys of `sheet_handlers` in `build_config` (System and Management
are handled outside the loop). -/
def handledSheets : List String :=
  ["NTP", "Syslog", "TACACS", "VLANs", "IRB_Interfaces", "Interfaces", "Hardening", "SNMP"]

/-- The `KeyError` raised when a handled sheet lacks its handler's columns,
modelled here as a sheet whose shape tag does not match its name. -/
def keyErrorMsg (name : String) : String := s!"KeyError in sheet {name}"

/-- Dispatch of one workbook sheet inside `build_config`'s loop: a handled
name runs its generator, any other name is skipped. -/
def sheetLines (name : String) (s : Sheet) : Except String (List String) :=
  if name == "NTP" then
    match s with
    | .ntpS rows => .ok (generate_ntp_config rows)
    | _ => .error (keyErrorMsg name)
  else if name == "Syslog" then
    match s with
    | .syslogS rows => .ok (generate_syslog_config rows)
    | _ => .error (keyErrorMsg name)
  else if name == "TACACS" then
    match s with
    | .tacacsS rows => .ok (generate_tacacs_config rows)
    | _ => .error (keyErrorMsg name)
  else if name == "VLANs" then
    match s with
    | .vlansS rows => .ok (generate_vlan_config rows)
    | _ => .error (keyErrorMsg name)
  else if name == "IRB_Interfaces" then
    match s with
    | .irbS rows => .ok (generate_irb_config rows)
    | _ => .error (keyErrorMsg name)
  else if name == "Interfaces" then
    match s with
    | .ifaceS rows => .ok (generate_interface_config rows)
    | _ => .error (keyErrorMsg name)
  else if name == "Hardening" then
    match s with
    | .hardeningS rows => .ok (generate_hardening_config rows)
    | _ => .error (keyErrorMsg name)
  else if name == "SNMP" then
    match s with
    | .snmpS rows => generate_snmp_config rows
    | _ => .error (keyErrorMsg name)
  else .ok []

/-- The `for sheet_name in xls.sheet_names` loop of `build_config`: the
handled sheets contribute their lines in workbook sheet order, and an
exception in any generator aborts the whole build. -/
def middleLoop : List (String × Sheet) → Except String (List String)
  | [] => .ok []
  | (n, s) :: rest =>
      match sheetLines n s with
      | .error e => .error e
      | .ok ls =>
          match middleLoop rest with
          | .error e => .error e
          | .ok more => .ok (ls ++ more)

/-- The `'#' * 60` separator of the header. -/
def hashRule : String := String.mk (List.replicate 60 '#')

/-- The fixed header block of `build_config`. -/
def configHeader (serial_number hostname mgmt_ip : String) : List String :=
  ["# Juniper EX Switch Configuration",
   "# Generated from Excel template",
   s!"# Switch Serial Number: {serial_number}",
   s!"# Hostname           : {hostname}",
   s!"# Management IP      : {mgmt_ip}",
   hashRule,
   ""]

/-- The System block of `build_config`: override applied to a fresh copy of
the sheet, then `generate_system_config`; an absent sheet contributes
nothing. -/
def systemSection (wb : Workbook) (serial_number hostname : String) : Except String (List String) :=
  match findSheet wb "System" with
  | some (.systemS rows) =>
      .ok (generate_system_config (applySystemOverride hostname serial_number rows)).fst
  | some _ => .error (keyErrorMsg "System")
  | none => .ok []

/-- The Management block of `build_config`: always processed after the
loop, with the device's management IP as `override_ip`. -/
def mgmtSection (wb : Workbook) (mgmt_ip : String) : Except String (List String) :=
  match findSheet wb "Management" with
  | some (.mgmtS rows) => .ok (generate_management_config rows (some mgmt_ip))
  | some _ => .error (keyErrorMsg "Management")
  | none => .ok []

/-- `build_config` before the final `'\n'.join`: header, System block,
handled sheets in workbook order, Management block. -/
def build_config_lines (wb : Workbook) (serial_number hostname mgmt_ip : String) :
    Except String (List String) :=
  match systemSection wb serial_number hostname with
  | .error e => .error e
  | .ok sys =>
      match middleLoop wb.sheets with
      | .error e => .error e
      | .ok mid =>
          match mgmtSection wb mgmt_ip with
          | .error e => .error e
          | .ok mgmt =>
              .ok (configHeader serial_number hostname mgmt_ip ++ sys ++ mid ++ mgmt)

/-- `build_config`: the generated text for one device, or the exception
that escaped one of the generators. -/
def build_config (wb : Workbook) (serial_number hostname mgmt_ip : String) :
    Except String String :=
  (build_config_lines wb serial_number hostname mgmt_ip).map (String.intercalate "\n")

/-- One Inventory row: column name to cell. -/
abbrev InvRow := List (String × Cell)

/-- `row[col]` on an Inventory row (every row of a DataFrame carries every
column; an absent pair reads as a blank cell). -/
def getCol (r : InvRow) (c : String) : Cell :=
  match r.find? (fun p => p.fst == c) with
  | some p => p.snd
  | none => none

/-- `str(row[col_map['serial']]).strip()`. -/
def serialOf (cs : String) (r : InvRow) : String := pyStrip (cellStr (getCol r cs))

/-- `str(row[col_map['hostname']]).strip()`. -/
def hostOf (ch : String) (r : InvRow) : String := pyStrip (cellStr (getCol r ch))

/-- `str(row[col_map['mgmt_ip']]).strip()`. -/
def mgmtOf (ci : String) (r : InvRow) : String := pyStrip (cellStr (getCol r ci))

/-- The placeholder tuple of the skip test:
`serial.lower() in ('nan', 'serial number', '#', '')`. -/
def placeholderSerials : List String := ["nan", "serial number", "#", ""]

/-- A record survives the blank/placeholder skip:
`not (not serial or serial.lower() in placeholders)`. -/
def qualifies (cs : String) (r : InvRow) : Bool :=
  let s := serialOf cs r
  !(s == "" || placeholderSerials.contains (pyLower s))

/-- The per-row loop of inventory mode: each qualifying record gets a
`<serial>.cfg` file whose content is `build_config`; a non-qualifying
record is skipped; an exception from `build_config` aborts the loop,
keeping the files already written. -/
def processRecords (wb : Workbook) (cs ch ci : String) :
    List InvRow → Except (List (String × String) × String) (List (String × String))
  | [] => .ok []
  | r :: rs =>
      if qualifies cs r then
        match build_config wb (serialOf cs r) (hostOf ch r) (mgmtOf ci r) with
        | .error e => .error ([], e)
        | .ok text =>
            let file := (serialOf cs r ++ ".cfg", text)
            match processRecords wb cs ch ci rs with
            | .ok files => .ok (file :: files)
            | .error (files, e) => .error (file :: files, e)
      else processRecords wb cs ch ci rs

/-- Python `pat in s` substring containment. -/
def containsSub (s pat : String) : Bool := (pySplit s pat).length > 1

/-- The fuzzy column detection of inventory mode: lower-case, spaces to
underscores, then the `serial` / `host` / `ip`-`mgmt`-`management`
substring tests in their `if` / `elif` order. -/
def colKey (col : String) : Option String :=
  let lc := pyReplace (pyLower col) " " "_"
  if containsSub lc "serial" then some "serial"
  else if containsSub lc "host" then some "hostname"
  else if containsSub lc "ip" || containsSub lc "mgmt" || containsSub lc "management" then
    some "mgmt_ip"
  else none

/-- The `col_map` dictionary: a later column overwrites an earlier hit for
the same key. -/
def detectCols (cols : List String) : List (String × String) :=
  cols.foldl
    (fun m col =>
      match colKey col with
      | some k => (m.filter (fun p => p.fst != k)) ++ [(k, col)]
      | none => m)
    []

/-- Dictionary lookup in `col_map`. -/
def mapLookup (m : List (String × String)) (k : String) : Option String :=
  ((m.find? (fun p => p.fst == k)).map (fun p => p.snd))

/-- The Inventory sheet: its column names and its records. -/
structure InventorySheet where
  columns : List String
  rows : List InvRow
deriving DecidableEq

/-- The outcome of an inventory-mode run: a structural error before any
file, a completed list of `(filename, content)` pairs, or an aborted run
with the files written before the exception. -/
inductive RunResult where
  | structuralError (missing found : List String)
  | generated (files : List (String × String))
  | aborted (files : List (String × String)) (err : String)
deriving DecidableEq

/-- The three required column keys, in the order they are checked. -/
def requiredKeys : List String := ["serial", "hostname", "mgmt_ip"]

/-- `df_inv.columns.str.strip()`. -/
def strippedColumns (inv : InventorySheet) : List String := inv.columns.map (fun c => pyStrip c)

/-- The records re-keyed by the stripped column names. -/
def strippedRows (inv : InventorySheet) : List InvRow :=
  inv.rows.map (fun r => r.map (fun p => (pyStrip p.fst, p.snd)))

/-- The `missing` list of inventory mode: required keys the fuzzy match
could not locate. -/
def missingKeys (inv : InventorySheet) : List String :=
  requiredKeys.filter (fun k => (mapLookup (detectCols (strippedColumns inv)) k).isNone)

/-- Inventory mode of `convert_excel_to_junos`: abort with the missing keys
and the discovered columns before producing any file, otherwise run the
per-record loop. -/
def convert_inventory (wb : Workbook) (inv : InventorySheet) : RunResult :=
  if missingKeys inv ≠ [] then .structuralError (missingKeys inv) (strippedColumns inv)
  else
    match mapLookup (detectCols (strippedColumns inv)) "serial",
          mapLookup (detectCols (strippedColumns inv)) "hostname",
          mapLookup (detectCols (strippedColumns inv)) "mgmt_ip" with
    | some cs, some ch, some ci =>
        match processRecords wb cs ch ci (strippedRows inv) with
        | .ok files => .generated files
        | .error (files, e) => .aborted files e
    | _, _, _ => .structuralError (missingKeys inv) (strippedColumns inv)

/-- One device record of `generate_configs.py` (OOB-Jinja2). -/
structure Device where
  serial : String
  model : String
  hostname : Option String
deriving DecidableEq

/-- A character repeated `n` times. -/
def repeatChar (c : Char) (n : Nat) : String := String.mk (List.replicate n c)

/-- The header block of `generate_device_config`, which embeds the
`datetime.now()` generation timestamp. -/
def deviceHeader (d : Device) (now_str : String) : String :=
  let serial := d.serial
  let model := d.model
  let host := d.hostname.getD "N/A"
  let rule := "# " ++ repeatChar '=' 60 ++ "\n"
  rule ++ s!"# Device  : {serial}\n" ++ s!"# Model   : {model}\n" ++
    s!"# Host    : {host}\n" ++ s!"# Generated: {now_str}\n" ++ rule ++ "\n"

/-- The per-template section banner of `generate_device_config`. -/
def sectionBanner (tmpl : String) : String :=
  let up := pyReplace (pyUpper tmpl) "_" " "
  let dashes := repeatChar '─' (50 - tmpl.length)
  s!"# ---- {up} {dashes} #\n"

/-- `generate_device_config` (OOB-Jinja2): header plus one section per
template whose render is truthy; rendering is the external Jinja2 engine,
passed here as an oracle from template name to rendered text. -/
def generate_device_config (d : Device) (render : String → Option String)
    (template_names : List String) (now_str : String) : String :=
  let sections := template_names.filterMap (fun t =>
    match render t with
    | some s => if s == "" then none else some (sectionBanner t ++ (pyStrip s ++ "\n\n"))
    | none => none)
  String.join (deviceHeader d now_str :: sections)

/-- Written from the spec's words for comparison with `build_config_lines`
(claim C2): the middle domains assembled in the FIXED declared order NTP,
Syslog, TACACS, VLANs, IRB_Interfaces, Interfaces, Hardening, SNMP,
regardless of the workbook's own sheet order. -/
def middleDeclaredOrder (wb : Workbook) : Except String (List String) :=
  middleLoop (handledSheets.filterMap (fun n => (findSheet wb n).map (fun s => (n, s))))

/-- Written from the spec's words for comparison with `build_config_lines`
(claim C2): header, System block, middle domains in the declared fixed
order, Management block last. -/
def assemble_declaredOrder (wb : Workbook) (serial_number hostname mgmt_ip : String) :
    Except String (List String) :=
  match systemSection wb serial_number hostname with
  | .error e => .error e
  | .ok sys =>
      match middleDeclaredOrder wb with
      | .error e => .error e
      | .ok mid =>
          match mgmtSection wb mgmt_ip with
          | .error e => .error e
          | .ok mgmt =>
              .ok (configHeader serial_number hostname mgmt_ip ++ sys ++ mid ++ mgmt)

/-- The assembler restated section by section: header first, then the
System block, then exactly the handled sheets in the dataset's own sheet
order, then the Management block; a domain absent from the dataset does not
appear in the filtered list and contributes nothing. -/
def assemble_sheetOrder (wb : Workbook) (serial_number hostname mgmt_ip : String) :
    Except String (List String) :=
  match systemSection wb serial_number hostname with
  | .error e => .error e
  | .ok sys =>
      match middleLoop (wb.sheets.filter (fun p => handledSheets.contains p.fst)) with
      | .error e => .error e
      | .ok mid =>
          match mgmtSection wb mgmt_ip with
          | .error e => .error e
          | .ok mgmt =>
              .ok (configHeader serial_number hostname mgmt_ip ++ sys ++ mid ++ mgmt)

/-- A `filterMap` over rows that all map to `none` produces no lines. -/
theorem filterMap_none_of {α β : Type} (f : α → Option β) :
    ∀ l : List α, (∀ a ∈ l, f a = none) → l.filterMap f = []
  | [], _ => rfl
  | a :: l, h => by
      have ha : f a = none := h a (List.mem_cons_self a l)
      have hl := filterMap_none_of f l (fun x hx => h x (List.mem_cons_of_mem a hx))
      simp [List.filterMap_cons, ha, hl]

/-- A `joinAll` over rows that all map to `[]` produces no lines. -/
theorem joinAll_nil_of {α : Type} (f : α → List String) :
    ∀ l : List α, (∀ a ∈ l, f a = []) → joinAll (l.map f) = []
  | [], _ => rfl
  | a :: l, h => by
      have ha : f a = [] := h a (List.mem_cons_self a l)
      have hl := joinAll_nil_of f l (fun x hx => h x (List.mem_cons_of_mem a hx))
      simp [joinAll, ha, hl]

/-- A SNMP row loop over rows that all emit nothing succeeds with no lines. -/
theorem snmpLoop_ok_of :
    ∀ rows : List SnmpRow, (∀ r ∈ rows, snmpRowLines r = .ok []) → snmpLoop rows = .ok []
  | [], _ => rfl
  | r :: rows, h => by
      have hr : snmpRowLines r = .ok [] := h r (List.mem_cons_self r rows)
      have hl := snmpLoop_ok_of rows (fun x hx => h x (List.mem_cons_of_mem r hx))
      simp [snmpLoop, hr, hl]

/-- The SNMP row loop over an appended list: the left part runs first and
its commands come first; an error on either side is the loop's error. -/
theorem snmpLoop_append :
    ∀ pre rs : List SnmpRow,
      snmpLoop (pre ++ rs) =
        match snmpLoop pre with
        | .error e => .error e
        | .ok l =>
            match snmpLoop rs with
            | .error e => .error e
            | .ok l2 => .ok (l ++ l2)
  | [], rs => by
      cases h : snmpLoop rs <;> simp [snmpLoop, h]
  | r :: pre, rs => by
      have ih := snmpLoop_append pre rs
      cases hr : snmpRowLines r
      · simp [snmpLoop, hr]
      · cases hp : snmpLoop pre
        · simp [snmpLoop, hr, ih, hp]
        · cases hs : snmpLoop rs <;> simp [snmpLoop, hr, ih, hp, hs]

/-- A sheet whose name is not in `sheet_handlers` is skipped by the loop. -/
theorem sheetLines_unhandled (n : String) (s : Sheet)
    (h : handledSheets.contains n = false) : sheetLines n s = .ok [] := by
  have h' : ¬ n ∈ handledSheets := by simpa using h
  simp only [handledSheets, List.mem_cons, List.mem_singleton, not_or] at h'
  obtain ⟨h1, h2, h3, h4, h5, h6, h7, h8, -⟩ := h'
  simp [sheetLines, h1, h2, h3, h4, h5, h6, h7, h8]

/-- The sheet loop only sees the handled sheets: filtering the unhandled
names away does not change its outcome. -/
theorem middleLoop_filter :
    ∀ l : List (String × Sheet),
      middleLoop l = middleLoop (l.filter (fun p => handledSheets.contains p.fst))
  | [] => rfl
  | (n, s) :: rest => by
      have ih := middleLoop_filter rest
      by_cases hc : handledSheets.contains n = true
      · simp only [List.filter_cons, hc, if_pos]
        simp [middleLoop, ih]
      · have hcf : handledSheets.contains n = false := by simpa using hc
        have hz := sheetLines_unhandled n s hcf
        have hmem : n ∉ handledSheets := by simpa using hcf
        have hfc : List.filter (fun p => handledSheets.contains p.fst) ((n, s) :: rest)
            = List.filter (fun p => handledSheets.contains p.fst) rest := by
          simp [List.filter_cons, hmem]
        rw [hfc]
        simp only [middleLoop, hz, ih]
        cases hm : middleLoop (List.filter (fun p => handledSheets.contains p.fst) rest) <;> simp

/-- Skipped records contribute nothing: the per-record loop computes the
same outcome on the qualifying records alone. -/
theorem processRecords_filter (wb : Workbook) (cs ch ci : String) :
    ∀ rs : List InvRow,
      processRecords wb cs ch ci rs =
        processRecords wb cs ch ci (rs.filter (fun r => qualifies cs r))
  | [] => rfl
  | r :: rs => by
      have ih := processRecords_filter wb cs ch ci rs
      by_cases hq : qualifies cs r = true
      · have hfc : List.filter (fun x => qualifies cs x) (r :: rs)
            = r :: List.filter (fun x => qualifies cs x) rs := by
          simp [List.filter_cons, hq]
        rw [hfc]
        simp only [processRecords, hq, if_pos, ih]
      · have hqf : qualifies cs r = false := by simpa using hq
        have hfc : List.filter (fun x => qualifies cs x) (r :: rs)
            = List.filter (fun x => qualifies cs x) rs := by
          simp [List.filter_cons, hqf]
        rw [hfc]
        simp only [processRecords, hqf, ih]
        simp

/-- In a completed run, every qualifying record's file is present and its
content is `build_config` of the shared workbook and that record's own
three fields. -/
theorem processRecords_mem (wb : Workbook) (cs ch ci : String) :
    ∀ (rs : List InvRow) (files : List (String × String)),
      processRecords wb cs ch ci rs = .ok files →
      ∀ r ∈ rs, qualifies cs r = true →
        ∃ t, build_config wb (serialOf cs r) (hostOf ch r) (mgmtOf ci r) = .ok t ∧
          (serialOf cs r ++ ".cfg", t) ∈ files
  | [], _, _, r, hr, _ => absurd hr (List.not_mem_nil r)
  | x :: rs, files, hok, r, hr, hq => by
      by_cases hqx : qualifies cs x = true
      · simp only [processRecords, hqx, if_pos] at hok
        cases hb : build_config wb (serialOf cs x) (hostOf ch x) (mgmtOf ci x) with
        | error e => rw [hb] at hok; exact absurd hok (by simp)
        | ok t =>
            rw [hb] at hok
            cases hrec : processRecords wb cs ch ci rs with
            | error p => rw [hrec] at hok; exact absurd hok (by simp)
            | ok fs =>
                rw [hrec] at hok
                have hfiles : files = (serialOf cs x ++ ".cfg", t) :: fs := by
                  simpa using hok.symm
                rcases List.mem_cons.mp hr with hrx | hrs
                · subst hrx
                  exact ⟨t, hb, by rw [hfiles]; exact List.mem_cons_self _ _⟩
                · obtain ⟨t', hb', hm'⟩ := processRecords_mem wb cs ch ci rs fs hrec r hrs hq
                  exact ⟨t', hb', by rw [hfiles]; exact List.mem_cons_of_mem _ hm'⟩
      · have hqf : qualifies cs x = false := by simpa using hqx
        simp only [processRecords, hqf] at hok
        rcases List.mem_cons.mp hr with hrx | hrs
        · subst hrx; rw [hq] at hqf; exact absurd hqf (by simp)
        · simp only [Bool.false_eq_true, if_false] at hok
          exact processRecords_mem wb cs ch ci rs files hok r hrs hq

/-- An `Except.error` coming out of `snmpAuthLines` always carries the
unpack `ValueError` message. -/
theorem snmpAuthLines_error (n : String) (a : Cell) (e : String)
    (h : snmpAuthLines n a = .error e) : e = valueUnpackError := by
  unfold snmpAuthLines at h
  by_cases h1 : filled a = true
  · rw [if_pos h1] at h
    cases h2 : splitFirstColon (cellStr a) with
    | none => rw [h2] at h; injection h with h'; exact h'.symm
    | some p => rw [h2] at h; exact absurd h (by simp)
  · rw [if_neg h1] at h
    exact absurd h (by simp)

/-- A filled v3-user row whose Authorization or Privacy value has no colon
makes `snmpRowLines` raise the unpack `ValueError`. -/
theorem snmpRowLines_error (r : SnmpRow)
    (hname : filled r.name = true)
    (htype : r.snmp_type = some "v3-user")
    (hbad : (filled r.authorization = true ∧ splitFirstColon (cellStr r.authorization) = none)
          ∨ (filled r.privacy = true ∧ splitFirstColon (cellStr r.privacy) = none)) :
    snmpRowLines r = .error valueUnpackError := by
  have hcomm : (r.snmp_type == some "community") = false := by rw [htype]; decide
  have hv3 : (r.snmp_type == some "v3-user") = true := by rw [htype]; decide
  simp only [snmpRowLines, hname, hcomm, hv3, if_true, if_false, Bool.false_eq_true,
    if_pos, reduceIte]
  rcases hbad with ⟨hf, hs⟩ | ⟨hf, hs⟩
  · simp [snmpAuthLines, hf, hs]
  · cases ha : snmpAuthLines (cellStr r.name) r.authorization with
    | error e => rw [snmpAuthLines_error _ _ _ ha]
    | ok la => simp [snmpPrivLines, hf, hs]

/-- The SNMP table of the C1 run: a v3-user row whose Authorization has no
colon, followed by a perfectly valid community row. -/
def snmpBadRow : SnmpRow := ⟨some "admin3", some "v3-user", some "invalidnocolon", none, none⟩

/-- A valid SNMP community row. -/
def snmpGoodRow : SnmpRow := ⟨some "public", some "community", none, none, some "read-only"⟩

/-- A workbook whose only sheet is the SNMP table above. -/
def wbC1 : Workbook := ⟨[("SNMP", .snmpS [snmpBadRow, snmpGoodRow])]⟩

/-- An inventory with two perfectly valid device records. -/
def invC1 : InventorySheet :=
  ⟨["Serial Number", "Hostname", "Mgmt IP"],
   [[("Serial Number", some "A1"), ("Hostname", some "h1"), ("Mgmt IP", some "10.0.0.1")],
    [("Serial Number", some "A2"), ("Hostname", some "h2"), ("Mgmt IP", some "10.0.0.2")]]⟩

/-- C1, counterexample: with an SNMP table holding a colon-less v3-user row
and then a valid community row, and an inventory of two valid devices, the
run aborts with the `ValueError` and zero files — the valid second row and
the second device are never processed, contradicting the claim that only
that row is skipped while the rest of the table, the device and the run
continue. -/
theorem C1_counterexample :
    convert_inventory wbC1 invC1 = RunResult.aborted [] valueUnpackError ∧
    snmpRowLines snmpGoodRow = .ok ["set snmp community public authorization read-only"] :=
  ⟨by decide, rfl⟩

/-- C1, amended: a v3-user row with a filled Authorization or Privacy value
containing no colon makes the whole SNMP mapper raise the unpack
`ValueError` — regardless of how many valid rows precede or follow it — so
the row is not skipped; the error aborts the device build and the run. -/
theorem C1_theorem (pre post : List SnmpRow) (r : SnmpRow) (l : List String)
    (hpre : snmpLoop pre = .ok l)
    (hname : filled r.name = true)
    (htype : r.snmp_type = some "v3-user")
    (hbad : (filled r.authorization = true ∧ splitFirstColon (cellStr r.authorization) = none)
          ∨ (filled r.privacy = true ∧ splitFirstColon (cellStr r.privacy) = none)) :
    generate_snmp_config (pre ++ r :: post) = .error valueUnpackError := by
  have hrow := snmpRowLines_error r hname htype hbad
  have h2 : snmpLoop (r :: post) = .error valueUnpackError := by
    simp [snmpLoop, hrow]
  have happ := snmpLoop_append pre (r :: post)
  rw [hpre, h2] at happ
  simp only [generate_snmp_config, happ]

/-- C1, witness: the amended theorem applied to a table with one valid
community row before the colon-less v3-user row. -/
theorem C1_witness :
    generate_snmp_config ([snmpGoodRow] ++ snmpBadRow :: []) = .error valueUnpackError :=
  C1_theorem [snmpGoodRow] [] snmpBadRow
    ["set snmp community public authorization read-only"]
    rfl (by decide) (by decide) (Or.inl ⟨by decide, by decide⟩)

/-- A workbook whose sheets appear in the order System, SNMP, NTP — legal
for a spreadsheet, but not the claim's declared domain order. -/
def wbOrder : Workbook :=
  ⟨[("System", .systemS [⟨some "domain_name", some "example.com"⟩]),
    ("SNMP", .snmpS [snmpGoodRow]),
    ("NTP", .ntpS [⟨some "10.0.0.1", none⟩])]⟩

/-- C2, counterexample: on a workbook whose sheet order is System, SNMP,
NTP, the code emits the SNMP section before the NTP section — the
workbook's own sheet order — while an assembler following the claim's
declared fixed order emits NTP first; the two outputs differ. -/
theorem C2_counterexample :
    (build_config_lines wbOrder "SN" "sw" "1.2.3.4").toOption =
      some ["# Juniper EX Switch Configuration", "# Generated from Excel template",
        "# Switch Serial Number: SN", "# Hostname           : sw",
        "# Management IP      : 1.2.3.4", hashRule, "",
        "# System Configuration", "set system domain-name example.com", "",
        "# SNMP Configuration", "set snmp community public authorization read-only", "",
        "# NTP Configuration", "set system ntp server 10.0.0.1", ""] ∧
    (assemble_declaredOrder wbOrder "SN" "sw" "1.2.3.4").toOption =
      some ["# Juniper EX Switch Configuration", "# Generated from Excel template",
        "# Switch Serial Number: SN", "# Hostname           : sw",
        "# Management IP      : 1.2.3.4", hashRule, "",
        "# System Configuration", "set system domain-name example.com", "",
        "# NTP Configuration", "set system ntp server 10.0.0.1", "",
        "# SNMP Configuration", "set snmp community public authorization read-only", ""] ∧
    (build_config_lines wbOrder "SN" "sw" "1.2.3.4").toOption ≠
      (assemble_declaredOrder wbOrder "SN" "sw" "1.2.3.4").toOption :=
  ⟨by decide, by decide, by decide⟩

/-- C2, amended: the assembler processes the System domain first and the
Management domain last (with the device's management-IP override), and the
remaining present handled domains in the dataset's own sheet order — not in
a fixed declared order; a domain absent from the dataset is simply absent
from the filtered sheet list and contributes nothing, and is not an error. -/
theorem C2_theorem (wb : Workbook) (serial_number hostname mgmt_ip : String) :
    build_config_lines wb serial_number hostname mgmt_ip =
      assemble_sheetOrder wb serial_number hostname mgmt_ip := by
  unfold build_config_lines assemble_sheetOrder
  rw [middleLoop_filter wb.sheets]

/-- A device record of the Jinja2 flow. -/
def deviceC3 : Device := ⟨"FW3523AB0001", "EX4100", some "sw1"⟩

/-- A render oracle with no templates on disk. -/
def renderNone : String → Option String := fun _ => none

/-- A workbook with no sheets at all. -/
def wbEmpty : Workbook := ⟨[]⟩

/-- C3, counterexample: `generate_device_config` embeds `datetime.now()`
in its header, so two invocations with identical device data, identical
render results and identical template order — run at different times —
produce different bytes. -/
theorem C3_counterexample :
    generate_device_config deviceC3 renderNone ["ntp"] "2024-01-01 00:00:00" ≠
      generate_device_config deviceC3 renderNone ["ntp"] "2024-01-02 00:00:00" := by
  decide

/-- C3, amended: per-device assembly is byte-for-byte deterministic given
identical inputs AND an identical generation timestamp: `build_config` is a
function of the workbook and the three override fields alone, and
`generate_device_config` of the device, render results, template order and
the timestamp. -/
theorem C3_theorem (wb₁ wb₂ : Workbook) (serial_number hostname mgmt_ip : String)
    (d : Device) (render : String → Option String) (tl : List String) (t₁ t₂ : String)
    (hwb : wb₁ = wb₂) (ht : t₁ = t₂) :
    build_config wb₁ serial_number hostname mgmt_ip =
      build_config wb₂ serial_number hostname mgmt_ip ∧
    generate_device_config d render tl t₁ = generate_device_config d render tl t₂ := by
  subst hwb; subst ht; exact ⟨rfl, rfl⟩

/-- C3, witness: the amended determinism at concrete inputs. -/
theorem C3_witness :
    build_config wbEmpty "S" "H" "M" = build_config wbEmpty "S" "H" "M" ∧
    generate_device_config deviceC3 renderNone ["ntp"] "t" =
      generate_device_config deviceC3 renderNone ["ntp"] "t" :=
  C3_theorem wbEmpty wbEmpty "S" "H" "M" deviceC3 renderNone ["ntp"] "t" "t" rfl rfl

/-- A record whose serial cell is the placeholder `#`. -/
def recPlaceholder : InvRow :=
  [("Serial Number", some "#"), ("Hostname", some "hx"), ("Mgmt IP", some "1.1.1.1")]

/-- A record with an ordinary serial. -/
def recGood : InvRow :=
  [("Serial Number", some "SN1"), ("Hostname", some "h1"), ("Mgmt IP", some "10.0.0.1")]

/-- C4: a record whose serial is blank or a placeholder/header token is
skipped entirely — prepending it changes neither the produced files nor the
success outcome — and the loop's result on any record list equals its
result on the qualifying records alone, so every other qualifying record is
still processed. -/
theorem C4_theorem (wb : Workbook) (cs ch ci : String) (r : InvRow) (rs : List InvRow)
    (h : qualifies cs r = false) :
    processRecords wb cs ch ci (r :: rs) = processRecords wb cs ch ci rs ∧
    processRecords wb cs ch ci rs =
      processRecords wb cs ch ci (rs.filter (fun x => qualifies cs x)) := by
  refine ⟨?_, processRecords_filter wb cs ch ci rs⟩
  simp [processRecords, h]

/-- C4, witness: the skip of the `#` placeholder record, at concrete
inputs. -/
theorem C4_witness :
    processRecords wbEmpty "Serial Number" "Hostname" "Mgmt IP" (recPlaceholder :: [recGood]) =
      processRecords wbEmpty "Serial Number" "Hostname" "Mgmt IP" [recGood] ∧
    processRecords wbEmpty "Serial Number" "Hostname" "Mgmt IP" [recGood] =
      processRecords wbEmpty "Serial Number" "Hostname" "Mgmt IP"
        ([recGood].filter (fun x => qualifies "Serial Number" x)) :=
  C4_theorem wbEmpty "Serial Number" "Hostname" "Mgmt IP" recPlaceholder [recGood] (by decide)

/-- An Interfaces row whose Enabled cell is neither YES nor NO. -/
def ifaceMaybe : IfaceRow := ⟨some "ge-0/0/1", none, none, none, none, none, none, some "MAYBE"⟩

/-- The same row with Enabled YES. -/
def ifaceYes : IfaceRow := ⟨some "ge-0/0/1", none, none, none, none, none, none, some "YES"⟩

/-- The same row with Enabled NO. -/
def ifaceNo : IfaceRow := ⟨some "ge-0/0/1", none, none, none, none, none, none, some "NO"⟩

/-- C5, counterexample: an Interfaces row with Enabled `MAYBE` — neither
token — generates exactly what Enabled `YES` generates (no `disable`
line) and not what Enabled `NO` generates, so a non-token Enabled value is
treated as YES, not as NO as the claim states. -/
theorem C5_counterexample :
    generate_interface_config [ifaceMaybe] = generate_interface_config [ifaceYes] ∧
    generate_interface_config [ifaceMaybe] ≠ generate_interface_config [ifaceNo] ∧
    pyUpper (cellStr ifaceMaybe.enabled) ≠ "YES" ∧
    pyUpper (cellStr ifaceMaybe.enabled) ≠ "NO" := by
  decide

/-- C5, amended: each boolean-like field is compared case-insensitively
against a single literal token and any other value acts as that field's
default — Prefer is compared against `YES` and anything else acts as `NO`
(no `prefer` keyword), while Enabled is compared against `NO` and anything
else acts as `YES` (no `disable` line). -/
theorem C5_theorem (p e : Cell) (rn : NtpRow) (ri : IfaceRow)
    (hp : pyUpper (cellStr p) ≠ "YES") (he : pyUpper (cellStr e) ≠ "NO") :
    generate_ntp_config [{ rn with prefer := p }] =
      generate_ntp_config [{ rn with prefer := some "no" }] ∧
    generate_interface_config [{ ri with enabled := e }] =
      generate_interface_config [{ ri with enabled := some "yes" }] := by
  have hp' : (pyUpper (cellStr p) == "YES") = false := by simpa using hp
  have hn' : (pyUpper (cellStr (some "no")) == "YES") = false := by decide
  have he' : (pyUpper (cellStr e) == "NO") = false := by simpa using he
  have hy' : (pyUpper (cellStr (some "yes")) == "NO") = false := by decide
  constructor
  · simp [generate_ntp_config, ntpRowCmd, List.filterMap_cons, hp', hn']
  · simp [generate_interface_config, ifaceRowLines, he', hy']

/-- C5, witness: the amended behaviour at concrete non-token values. -/
theorem C5_witness :
    generate_ntp_config [{ (⟨some "10.0.0.1", none⟩ : NtpRow) with prefer := some "MAYBE" }] =
      generate_ntp_config [{ (⟨some "10.0.0.1", none⟩ : NtpRow) with prefer := some "no" }] ∧
    generate_interface_config [{ ifaceMaybe with enabled := some "sometimes" }] =
      generate_interface_config [{ ifaceMaybe with enabled := some "yes" }] :=
  C5_theorem (some "MAYBE") (some "sometimes") ⟨some "10.0.0.1", none⟩ ifaceMaybe
    (by decide) (by decide)

/-- An IRB row whose Interface value contains no dot. -/
def irbDotless : IrbRow := ⟨some "irb", some "10.0.0.1", some "24", none⟩

/-- C6, counterexample: for the dotless Interface value `irb`, the mapper
emits `unit irb` — the whole value is reused as the unit suffix — and not
the `unit 0` line the claimed implicit zero/default suffix would produce. -/
theorem C6_counterexample :
    generate_irb_config [irbDotless] =
      ["# IRB Interface Configuration",
       "set interfaces irb unit irb family inet address 10.0.0.1/24", ""] ∧
    (generate_irb_config [irbDotless]).contains
      "set interfaces irb unit 0 family inet address 10.0.0.1/24" = false := by
  decide

/-- C6, amended: for a non-blank Interface value with no dot delimiter, the
split yields the whole value as its single piece, so both the base token
and the unit suffix are that whole value — the address line reads
`set interfaces v unit v ...`, not `unit 0`. -/
theorem C6_theorem (s ip plen : String) (hsplit : pySplit s "." = [s]) (hne : s ≠ "") :
    generate_irb_config [⟨some s, some ip, some plen, none⟩] =
      ["# IRB Interface Configuration",
       s!"set interfaces {s} unit {s} family inet address {ip}/{plen}", ""] := by
  have hf : filled (some s) = true := by simp [filled, hne]
  simp [generate_irb_config, irbRowLines, joinAll, hf, hsplit, cellStr, filled, hne]

/-- C6, witness: the amended behaviour at the concrete value `irb`. -/
theorem C6_witness :
    generate_irb_config [⟨some "irb", some "10.0.0.1", some "24", none⟩] =
      ["# IRB Interface Configuration",
       "set interfaces irb unit irb family inet address 10.0.0.1/24", ""] :=
  C6_theorem "irb" "10.0.0.1" "24" (by decide) (by decide)

/-- A Hardening row whose Feature cell is blank or absent contributes no
main command. -/
theorem hardeningCmd_none (r : HardeningRow) (h : filled r.feature = false) :
    hardeningCmd r = none := by
  cases hf : r.feature with
  | none => cases hs : r.setting <;> simp [hardeningCmd, hf, hs]
  | some f =>
      have hf0 : f = "" := by
        rw [hf] at h
        simpa [filled] using h
      subst hf0
      cases hs : r.setting with
      | none => simp [hardeningCmd, hf, hs]
      | some st =>
          have e1 : (("" : String) == "ssh_protocol") = false := by decide
          have e2 : (("" : String) == "ssh_root_login") = false := by decide
          have e3 : (("" : String) == "max_sessions") = false := by decide
          have e4 : (("" : String) == "connection_limit") = false := by decide
          have e5 : (("" : String) == "authentication_order") = false := by decide
          simp [hardeningCmd, hf, hs, e1, e2, e3, e4, e5]

/-- A Hardening row whose Feature cell is blank or absent contributes no
screen command. -/
theorem hardeningScreen_none (r : HardeningRow) (h : filled r.feature = false) :
    hardeningScreen r = none := by
  cases hf : r.feature with
  | none => cases hs : r.setting <;> simp [hardeningScreen, hf, hs]
  | some f =>
      have hf0 : f = "" := by
        rw [hf] at h
        simpa [filled] using h
      subst hf0
      cases hs : r.setting with
      | none => simp [hardeningScreen, hf, hs]
      | some st =>
          have e1 : (("" : String) == "ssh_protocol") = false := by decide
          have e2 : (("" : String) == "ssh_root_login") = false := by decide
          have e3 : (("" : String) == "max_sessions") = false := by decide
          have e4 : (("" : String) == "connection_limit") = false := by decide
          have e5 : (("" : String) == "authentication_order") = false := by decide
          have e6 : pyStartsWith "" "screen_" = false := by decide
          simp [hardeningScreen, hf, hs, e1, e2, e3, e4, e5, e6]

/-- C7: in every domain mapper, a row whose mandatory discriminator field
is blank or absent emits no command line: a table made only of such rows
produces exactly the domain header comment and the trailing blank line
(and, for SNMP, no error). -/
theorem C7_theorem
    (sysRows : List SystemRow) (ntpRows : List NtpRow) (sylRows : List SyslogRow)
    (tacRows : List TacacsRow) (vlanRows : List VlanRow) (irbRows : List IrbRow)
    (ifRows : List IfaceRow) (mgRows : List MgmtRow) (hdRows : List HardeningRow)
    (snRows : List SnmpRow) (oip : Option String)
    (h1 : ∀ r ∈ sysRows, filled r.value = false)
    (h2 : ∀ r ∈ ntpRows, filled r.server = false)
    (h3 : ∀ r ∈ sylRows, filled r.server = false)
    (h4 : ∀ r ∈ tacRows, filled r.server = false)
    (h5 : ∀ r ∈ vlanRows, filled r.vlan_id = false)
    (h6 : ∀ r ∈ irbRows, filled r.interface = false)
    (h7 : ∀ r ∈ ifRows, filled r.interface = false)
    (h8 : ∀ r ∈ mgRows, filled r.interface = false)
    (h9 : ∀ r ∈ hdRows, filled r.feature = false)
    (h10 : ∀ r ∈ snRows, filled r.name = false) :
    (generate_system_config sysRows).fst = ["# System Configuration", ""] ∧
    generate_ntp_config ntpRows = ["# NTP Configuration", ""] ∧
    generate_syslog_config sylRows = ["# Syslog Configuration", ""] ∧
    generate_tacacs_config tacRows = ["# TACACS+ Configuration", ""] ∧
    generate_vlan_config vlanRows = ["# VLAN Configuration", ""] ∧
    generate_irb_config irbRows = ["# IRB Interface Configuration", ""] ∧
    generate_interface_config ifRows = ["# Interface Configuration", ""] ∧
    generate_management_config mgRows oip = ["# Management Interface Configuration", ""] ∧
    generate_hardening_config hdRows = ["# Security Hardening Configuration", ""] ∧
    generate_snmp_config snRows = .ok ["# SNMP Configuration", ""] := by
  refine ⟨?_, ?_, ?_, ?_, ?_, ?_, ?_, ?_, ?_, ?_⟩
  · have hz : sysRows.filterMap systemRowCmd = [] :=
      filterMap_none_of _ _ (fun r hr => by simp [systemRowCmd, h1 r hr])
    simp [generate_system_config, hz]
  · have hz : ntpRows.filterMap ntpRowCmd = [] :=
      filterMap_none_of _ _ (fun r hr => by simp [ntpRowCmd, h2 r hr])
    simp [generate_ntp_config, hz]
  · have hz : sylRows.filterMap syslogRowCmd = [] :=
      filterMap_none_of _ _ (fun r hr => by simp [syslogRowCmd, h3 r hr])
    simp [generate_syslog_config, hz]
  · have hz : joinAll (tacRows.map tacacsRowLines) = [] :=
      joinAll_nil_of _ _ (fun r hr => by simp [tacacsRowLines, h4 r hr])
    simp [generate_tacacs_config, hz]
  · have hz : joinAll (vlanRows.map vlanRowLines) = [] :=
      joinAll_nil_of _ _ (fun r hr => by simp [vlanRowLines, h5 r hr])
    simp [generate_vlan_config, hz]
  · have hz : joinAll (irbRows.map irbRowLines) = [] :=
      joinAll_nil_of _ _ (fun r hr => by simp [irbRowLines, h6 r hr])
    simp [generate_irb_config, hz]
  · have hz : joinAll (ifRows.map ifaceRowLines) = [] :=
      joinAll_nil_of _ _ (fun r hr => by simp [ifaceRowLines, h7 r hr])
    simp [generate_interface_config, hz]
  · have hz : joinAll (mgRows.map (mgmtRowLines oip)) = [] :=
      joinAll_nil_of _ _ (fun r hr => by simp [mgmtRowLines, h8 r hr])
    simp [generate_management_config, hz]
  · have hc : hdRows.filterMap hardeningCmd = [] :=
      filterMap_none_of _ _ (fun r hr => hardeningCmd_none r (h9 r hr))
    have hs : hdRows.filterMap hardeningScreen = [] :=
      filterMap_none_of _ _ (fun r hr => hardeningScreen_none r (h9 r hr))
    simp [generate_hardening_config, hc, hs]
  · have hz : snmpLoop snRows = .ok [] :=
      snmpLoop_ok_of _ (fun r hr => by simp [snmpRowLines, h10 r hr])
    simp [generate_snmp_config, hz]

/-- C7, witness: one blank-discriminator row per domain (the SNMP row even
carries a colon-less Authorization, made harmless by its blank user name). -/
theorem C7_witness :
    (generate_system_config [⟨some "hostname", none⟩]).fst = ["# System Configuration", ""] ∧
    generate_ntp_config [⟨none, some "YES"⟩] = ["# NTP Configuration", ""] ∧
    generate_syslog_config [⟨none, none, none⟩] = ["# Syslog Configuration", ""] ∧
    generate_tacacs_config [⟨none, none, some "49"⟩] = ["# TACACS+ Configuration", ""] ∧
    generate_vlan_config [⟨none, some "mgmt", none⟩] = ["# VLAN Configuration", ""] ∧
    generate_irb_config [⟨some "", some "10.0.0.1", some "24", none⟩] =
      ["# IRB Interface Configuration", ""] ∧
    generate_interface_config [⟨none, none, none, none, none, none, none, none⟩] =
      ["# Interface Configuration", ""] ∧
    generate_management_config [⟨none, none, none, none, none⟩] (some "9.9.9.9") =
      ["# Management Interface Configuration", ""] ∧
    generate_hardening_config [⟨some "", some "v2"⟩] =
      ["# Security Hardening Configuration", ""] ∧
    generate_snmp_config [⟨none, some "v3-user", some "nocolon", none, none⟩] =
      .ok ["# SNMP Configuration", ""] :=
  C7_theorem [⟨some "hostname", none⟩] [⟨none, some "YES"⟩] [⟨none, none, none⟩]
    [⟨none, none, some "49"⟩] [⟨none, some "mgmt", none⟩]
    [⟨some "", some "10.0.0.1", some "24", none⟩]
    [⟨none, none, none, none, none, none, none, none⟩] [⟨none, none, none, none, none⟩]
    [⟨some "", some "v2"⟩] [⟨none, some "v3-user", some "nocolon", none, none⟩]
    (some "9.9.9.9")
    (by decide) (by decide) (by decide) (by decide) (by decide) (by decide) (by decide)
    (by decide) (by decide) (by decide)

/-- C8: in inventory mode, whenever the fuzzy column match leaves any of
the three required keys unlocated, the whole run ends as a structural error
that names exactly the missing keys and lists the discovered column names;
the `structuralError` outcome carries no files — nothing is produced. -/
theorem C8_theorem (wb : Workbook) (inv : InventorySheet) (h : missingKeys inv ≠ []) :
    convert_inventory wb inv =
      RunResult.structuralError (missingKeys inv) (strippedColumns inv) := by
  unfold convert_inventory
  rw [if_pos h]

/-- An inventory sheet with no column matching the management-IP synonyms. -/
def invMissing : InventorySheet := ⟨["Serial Number", "Hostname", "Notes"], []⟩

/-- C8, witness: the structural abort on a sheet without a management-IP
column. -/
theorem C8_witness :
    convert_inventory wbEmpty invMissing =
      RunResult.structuralError (missingKeys invMissing) (strippedColumns invMissing) :=
  C8_theorem wbEmpty invMissing (by decide)

/-- C9: in two completed inventory runs over the same shared workbook, any
record present in both — whatever the surrounding records, their order or
their number — yields one and the same config text, namely `build_config`
of the workbook and that record's own serial, hostname and management IP. -/
theorem C9_theorem (wb : Workbook) (cs ch ci : String) (rs₁ rs₂ : List InvRow)
    (r : InvRow) (f₁ f₂ : List (String × String))
    (h₁ : processRecords wb cs ch ci rs₁ = .ok f₁)
    (h₂ : processRecords wb cs ch ci rs₂ = .ok f₂)
    (hm₁ : r ∈ rs₁) (hm₂ : r ∈ rs₂) (hq : qualifies cs r = true) :
    ∃ t, build_config wb (serialOf cs r) (hostOf ch r) (mgmtOf ci r) = .ok t ∧
      (serialOf cs r ++ ".cfg", t) ∈ f₁ ∧ (serialOf cs r ++ ".cfg", t) ∈ f₂ := by
  obtain ⟨t, hb, hmem₁⟩ := processRecords_mem wb cs ch ci rs₁ f₁ h₁ r hm₁ hq
  obtain ⟨t', hb', hmem₂⟩ := processRecords_mem wb cs ch ci rs₂ f₂ h₂ r hm₂ hq
  rw [hb] at hb'
  injection hb' with ht
  exact ⟨t, hb, hmem₁, by rw [ht]; exact hmem₂⟩

/-- Another plain device record. -/
def recOther : InvRow :=
  [("Serial Number", some "SN0"), ("Hostname", some "h0"), ("Mgmt IP", some "10.0.0.2")]

/-- C9, witness: the record appears alone in one run and after another
device in the other run; its file and text are the same in both. -/
theorem C9_witness :
    ∃ t, build_config wbEmpty (serialOf "Serial Number" recGood) (hostOf "Hostname" recGood)
        (mgmtOf "Mgmt IP" recGood) = .ok t ∧
      (serialOf "Serial Number" recGood ++ ".cfg", t) ∈
        [("SN1.cfg", String.intercalate "\n" (configHeader "SN1" "h1" "10.0.0.1"))] ∧
      (serialOf "Serial Number" recGood ++ ".cfg", t) ∈
        [("SN0.cfg", String.intercalate "\n" (configHeader "SN0" "h0" "10.0.0.2")),
         ("SN1.cfg", String.intercalate "\n" (configHeader "SN1" "h1" "10.0.0.1"))] :=
  C9_theorem wbEmpty "Serial Number" "Hostname" "Mgmt IP" [recGood] [recOther, recGood]
    recGood
    [("SN1.cfg", String.intercalate "\n" (configHeader "SN1" "h1" "10.0.0.1"))]
    [("SN0.cfg", String.intercalate "\n" (configHeader "SN0" "h0" "10.0.0.2")),
     ("SN1.cfg", String.intercalate "\n" (configHeader "SN1" "h1" "10.0.0.1"))]
    rfl rfl (by decide) (by decide) (by decide)

/-- C10: a record with a qualifying serial and blank hostname and
management-IP cells is not rejected: the blank cells read back as the
string `nan`, which lands in the two header lines, and — when the System
sheet has a `hostname` parameter row — in a `set system host-name nan`
command; the record still produces its `<serial>.cfg` file. -/
theorem C10_theorem (wb : Workbook) (sysRows : List SystemRow) (r0 : SystemRow)
    (cs ch ci : String) (rv : InvRow) (ls : List String)
    (hsys : findSheet wb "System" = some (Sheet.systemS sysRows))
    (hr0 : r0 ∈ sysRows) (hp0 : r0.param = some "hostname")
    (hhb : getCol rv ch = none) (hmb : getCol rv ci = none)
    (hq : qualifies cs rv = true)
    (hls : build_config_lines wb (serialOf cs rv) (hostOf ch rv) (mgmtOf ci rv) = .ok ls) :
    hostOf ch rv = "nan" ∧ mgmtOf ci rv = "nan" ∧
    "# Hostname           : nan" ∈ ls ∧
    "# Management IP      : nan" ∈ ls ∧
    "set system host-name nan" ∈ ls ∧
    processRecords wb cs ch ci [rv] =
      .ok [(serialOf cs rv ++ ".cfg", String.intercalate "\n" ls)] := by
  have hh : hostOf ch rv = "nan" := by unfold hostOf; rw [hhb]; decide
  have hm : mgmtOf ci rv = "nan" := by unfold mgmtOf; rw [hmb]; decide
  rw [hh, hm] at hls
  have hsysSec : systemSection wb (serialOf cs rv) "nan" =
      .ok (generate_system_config (applySystemOverride "nan" (serialOf cs rv) sysRows)).fst := by
    unfold systemSection
    rw [hsys]
  rw [build_config_lines, hsysSec] at hls
  cases hmid : middleLoop wb.sheets with
  | error e => rw [hmid] at hls; exact absurd hls (by simp)
  | ok mid =>
      cases hmg : mgmtSection wb "nan" with
      | error e => rw [hmid, hmg] at hls; exact absurd hls (by simp)
      | ok mg =>
          rw [hmid, hmg] at hls
          have hls' : configHeader (serialOf cs rv) "nan" "nan" ++
              (generate_system_config (applySystemOverride "nan" (serialOf cs rv) sysRows)).fst ++
              mid ++ mg = ls := by
            injection hls
          have hg : (if r0.param == some "hostname"
              then { r0 with value := some "nan" } else r0) = { r0 with value := some "nan" } := by
            rw [hp0]; simp
          have hf : (if ({ r0 with value := some ("nan" : String) } : SystemRow).param ==
                some "serial_number"
              then { ({ r0 with value := some ("nan" : String) } : SystemRow) with
                       value := some (serialOf cs rv) }
              else { r0 with value := some ("nan" : String) })
              = { r0 with value := some ("nan" : String) } := by
            simp only []
            rw [if_neg]
            simp [hp0]
          have hr0' : ({ r0 with value := some ("nan" : String) } : SystemRow) ∈
              applySystemOverride "nan" (serialOf cs rv) sysRows := by
            unfold applySystemOverride
            refine List.mem_map.mpr ⟨{ r0 with value := some ("nan" : String) }, ?_, hf⟩
            exact List.mem_map.mpr ⟨r0, hr0, hg⟩
          have hrw : ({ r0 with value := some ("nan" : String) } : SystemRow) =
              ⟨some "hostname", some "nan"⟩ := by
            rw [hp0]
          have hcmd : systemRowCmd ({ r0 with value := some ("nan" : String) } : SystemRow) =
              some "set system host-name nan" := by
            rw [hrw]; rfl
          have hsysmem : "set system host-name nan" ∈
              (generate_system_config (applySystemOverride "nan" (serialOf cs rv) sysRows)).fst := by
            unfold generate_system_config
            refine List.mem_append_left _ (List.mem_cons_of_mem _ ?_)
            exact List.mem_filterMap.mpr ⟨_, hr0', hcmd⟩
          have hmemHost : "# Hostname           : nan" ∈
              configHeader (serialOf cs rv) "nan" "nan" := by
            unfold configHeader
            exact List.mem_cons_of_mem _ (List.mem_cons_of_mem _ (List.mem_cons_of_mem _
              (List.mem_cons_self _ _)))
          have hmemIp : "# Management IP      : nan" ∈
              configHeader (serialOf cs rv) "nan" "nan" := by
            unfold configHeader
            exact List.mem_cons_of_mem _ (List.mem_cons_of_mem _ (List.mem_cons_of_mem _
              (List.mem_cons_of_mem _ (List.mem_cons_self _ _))))
          have hInHeader : ∀ x, x ∈ configHeader (serialOf cs rv) "nan" "nan" → x ∈ ls := by
            intro x hx
            rw [← hls']
            exact List.mem_append_left _ (List.mem_append_left _ (List.mem_append_left _ hx))
          have hInSys : ∀ x, x ∈
              (generate_system_config (applySystemOverride "nan" (serialOf cs rv) sysRows)).fst →
              x ∈ ls := by
            intro x hx
            rw [← hls']
            exact List.mem_append_left _ (List.mem_append_left _ (List.mem_append_right _ hx))
          have hbc : build_config wb (serialOf cs rv) (hostOf ch rv) (mgmtOf ci rv) =
              .ok (String.intercalate "\n" ls) := by
            unfold build_config
            rw [hh, hm, build_config_lines, hsysSec, hmid, hmg]
            show Except.ok (String.intercalate "\n"
                (configHeader (serialOf cs rv) "nan" "nan" ++
                  (generate_system_config
                    (applySystemOverride "nan" (serialOf cs rv) sysRows)).fst ++ mid ++ mg)) =
              Except.ok (String.intercalate "\n" ls)
            rw [hls']
          refine ⟨hh, hm, hInHeader _ hmemHost, hInHeader _ hmemIp, hInSys _ hsysmem, ?_⟩
          simp [processRecords, hq, hbc]

/-- A workbook whose System sheet has a `hostname` row. -/
def wbC10 : Workbook := ⟨[("System", .systemS [⟨some "hostname", some "oldname"⟩])]⟩

/-- A record with a qualifying serial and blank hostname and management-IP
cells. -/
def recC10 : InvRow := [("Serial Number", some "SN9"), ("Hostname", none), ("Mgmt IP", none)]

/-- C10, witness: the blank cells become `nan` in the header and in the
host-name command, and the record still yields its file. -/
theorem C10_witness :
    hostOf "Hostname" recC10 = "nan" ∧ mgmtOf "Mgmt IP" recC10 = "nan" ∧
    "# Hostname           : nan" ∈
      (configHeader "SN9" "nan" "nan" ++
        ["# System Configuration", "set system host-name nan", ""]) ∧
    "# Management IP      : nan" ∈
      (configHeader "SN9" "nan" "nan" ++
        ["# System Configuration", "set system host-name nan", ""]) ∧
    "set system host-name nan" ∈
      (configHeader "SN9" "nan" "nan" ++
        ["# System Configuration", "set system host-name nan", ""]) ∧
    processRecords wbC10 "Serial Number" "Hostname" "Mgmt IP" [recC10] =
      .ok [(serialOf "Serial Number" recC10 ++ ".cfg",
            String.intercalate "\n"
              (configHeader "SN9" "nan" "nan" ++
                ["# System Configuration", "set system host-name nan", ""]))] :=
  C10_theorem wbC10 [⟨some "hostname", some "oldname"⟩] ⟨some "hostname", some "oldname"⟩
    "Serial Number" "Hostname" "Mgmt IP" recC10
    (configHeader "SN9" "nan" "nan" ++
      ["# System Configuration", "set system host-name nan", ""])
    rfl (by decide) rfl rfl rfl (by decide) rfl

end ConfGen
